import Mathlib

/-!
Verification of the web-RAG agent state machine and RAG assistant of
`k8s-agents-service`, shallowly embedded from `src/agents/web_rag_agent.py`,
`src/agents/tools.py` and `src/agents/rag_assistant.py`.

External capabilities (the completion model, the vector store retriever, the
web-search provider) are modelled as explicit outcome parameters of type
`Except`: an `Except.error` value stands for the Python call raising an
exception, `Except.ok` for a normal return.  Python exceptions are modelled by
`PyErr`, which distinguishes `RuntimeError` from every other exception class,
because the source's `except RuntimeError` / `except Exception` ordering in
`check_relevance_node` depends on exactly that distinction.  The source calls
the `async` `web_vector_search` without `await` at both call sites
(web_rag_agent.py lines 223 and 376); `PyValue` models the coroutine object
such a call binds, whose `.strip()` raises `AttributeError`.
-/

/-- A conversation message, as used by the web-RAG graph
(`langchain_core.messages`): we keep only the constructor kind and the string
content, which is all the orchestrator code inspects. -/
inductive Msg where
  | human (content : String)
  | ai (content : String)
  | system (content : String)
  deriving DecidableEq, Repr

/-- Python exceptions, split by the only distinction the embedded code makes:
`RuntimeError` (and subclasses) versus every other exception class. -/
inductive PyErr where
  | runtimeError (msg : String)
  | otherError (msg : String)
  deriving DecidableEq, Repr

/-- `WebRagState` of `web_rag_agent.py` (lines 53-62): messages plus the four
tracking fields.  The Python `TypedDict` is `total=False` and every read goes
through `.get(key, default)` with defaults `False`, `""`, `True`, `False`; we
model the state with the fields always present, and the graph's initial state
carries exactly those defaults. -/
structure WebRagState where
  messages : List Msg
  is_search_relevant : Bool
  optimized_query : String
  is_first_run : Bool
  has_search_data : Bool
  deriving DecidableEq, Repr

/-- A partial state update as returned by a LangGraph node: `none` means the
key is absent from the returned dict (field left unchanged); `messages` is
under the `add_messages` reducer, so returned messages are appended. -/
structure StateUpdate where
  messages : List Msg
  is_search_relevant : Option Bool
  optimized_query : Option String
  is_first_run : Option Bool
  has_search_data : Option Bool
  deriving DecidableEq, Repr

/-- The update returned by a node that returns an empty dict (or, equivalently
under the reducers, the unchanged input state). -/
def StateUpdate.empty : StateUpdate :=
  ⟨[], none, none, none, none⟩

/-- LangGraph channel merge: appended messages, last-value overwrite for the
scalar fields. -/
def applyUpdate (s : WebRagState) (u : StateUpdate) : WebRagState where
  messages := s.messages ++ u.messages
  is_search_relevant := u.is_search_relevant.getD s.is_search_relevant
  optimized_query := u.optimized_query.getD s.optimized_query
  is_first_run := u.is_first_run.getD s.is_first_run
  has_search_data := u.has_search_data.getD s.has_search_data

/-- `RunnableConfig` as read by the web-RAG agent: only
`config["configurable"].get("thread_id", "default")` is relevant. -/
structure RunnableConfig where
  thread_id : Option String
  deriving DecidableEq, Repr

/-- `get_collection_name_from_thread` (web_rag_agent.py lines 65-68). -/
def get_collection_name_from_thread (config : RunnableConfig) : String :=
  "web_search_" ++ config.thread_id.getD "default"

/-- `SearchQuery` structured output (web_rag_agent.py lines 23-30). -/
structure SearchQuery where
  optimized_query : String
  reasoning : String
  deriving DecidableEq, Repr

/-- `RelevanceDecision` structured output (web_rag_agent.py lines 33-40). -/
structure RelevanceDecision where
  needs_search : Bool
  reasoning : String
  deriving DecidableEq, Repr

/-- `FirstRunSearchDecision` structured output (web_rag_agent.py lines 43-50). -/
structure FirstRunSearchDecision where
  needs_web_search : Bool
  reasoning : String
  deriving DecidableEq, Repr

/-- The graph's node names (plus `END`), as registered by `agent.add_node` in
web_rag_agent.py lines 492-496. -/
inductive Node where
  | check_first_run_search_need
  | generate_search_query
  | check_relevance
  | web_search_and_store
  | rag_response
  deriving DecidableEq, Repr

/-- `check_first_run_search_need_node` (web_rag_agent.py lines 275-357).
On a non-first run the Python returns the state unchanged (under the channel
reducers this is the empty update).  On the first run the structured
`FirstRunSearchDecision` call either succeeds, in which case
`is_search_relevant := not needs_web_search`, or raises any exception, caught
by `except Exception` with the conservative default `is_search_relevant :=
False` (default to searching). -/
def check_first_run_search_need_node (s : WebRagState)
    (judgment : Except PyErr FirstRunSearchDecision) : StateUpdate :=
  if !s.is_first_run then
    StateUpdate.empty
  else
    match judgment with
    | .ok decision =>
        { StateUpdate.empty with is_search_relevant := some (!decision.needs_web_search) }
    | .error _ =>
        { StateUpdate.empty with is_search_relevant := some false }

/-- `generate_search_query_node` (web_rag_agent.py lines 71-152).  The node
reads the latest message (`state["messages"][-1]`): its content if it is a
`HumanMessage`, the literal `"latest information"` otherwise.  A successful
structured `SearchQuery` call stores the optimized query; any exception is
caught and the node falls back to the user query verbatim, appending a
diagnostic assistant message. -/
def generate_search_query_node (s : WebRagState)
    (modelResult : Except PyErr SearchQuery) : StateUpdate :=
  let user_query :=
    match s.messages.getLast? with
    | some (.human c) => c
    | _ => "latest information"
  match modelResult with
  | .ok search_result =>
      { StateUpdate.empty with optimized_query := some search_result.optimized_query }
  | .error _ =>
      { StateUpdate.empty with
          optimized_query := some user_query,
          messages := [.ai ("Query optimization failed, using original query: '"
            ++ user_query ++ "'")] }

/-- `web_vector_search` (tools.py lines 190-231): an `async def` whose whole
body is wrapped in `try ... except Exception as e: raise RuntimeError(...)`,
so when it is **awaited** every failure of the underlying retriever surfaces
as a `RuntimeError` with the prefixed message, and a success returns the
formatted context string.  The web-RAG orchestrator, however, calls this
coroutine function without `await` at both of its call sites
(web_rag_agent.py lines 223 and 376), so from the embedded graph this
behaviour never executes: the call sites bind the coroutine object itself. -/
def web_vector_search (underlying : Except String String) : Except PyErr String :=
  match underlying with
  | .ok context => .ok context
  | .error e => .error (.runtimeError ("Error performing web vector search: " ++ e))

/-- Python's `str.strip()`: the string without leading and trailing
whitespace (executable on character lists, unlike core `String.trim`, so that
concrete instances evaluate). -/
def pyStrip (s : String) : String :=
  ⟨(((s.data.dropWhile Char.isWhitespace).reverse.dropWhile Char.isWhitespace).reverse)⟩

/-- The message of the `AttributeError` Python raises when `.strip()` is
called on a coroutine object. -/
def pyCoroutineStripError : String :=
  "AttributeError: 'coroutine' object has no attribute 'strip'"

/-- The kind of Python value `check_relevance_node` binds to
`existing_context`: a string (what an awaited `web_vector_search` would
return) or the un-started coroutine object that calling an `async def`
function without `await` actually produces. -/
inductive PyValue where
  | str (s : String)
  | coroutine
  deriving DecidableEq, Repr

/-- Python truthiness: a string is truthy iff non-empty; a coroutine object
defines neither `__bool__` nor `__len__`, so it is truthy. -/
def PyValue.truthy : PyValue → Bool
  | .str s => !(s == "")
  | .coroutine => true

/-- The attribute call `.strip()`: on a string it strips whitespace; a
coroutine object has no `strip` attribute, so Python raises
`AttributeError`. -/
def PyValue.strip : PyValue → Except PyErr String
  | .str s => .ok (pyStrip s)
  | .coroutine => .error (.otherError pyCoroutineStripError)

/-- The update returned by the `except RuntimeError` handler of
`check_relevance_node` (web_rag_agent.py lines 443-448). -/
def relevanceRuntimeErrorUpdate (optimized_query : String) : StateUpdate :=
  { StateUpdate.empty with
      is_search_relevant := some false,
      messages := [.ai ("Vector database not found for query: '" ++ optimized_query
        ++ "'. Will perform web search.")] }

/-- `check_relevance_node` (web_rag_agent.py lines 360-456).  Line 376 calls
the `async` `web_vector_search` **without `await`**, binding
`existing_context` to the un-started coroutine object — the retriever (and
its `RuntimeError` wrapping) never runs and the binding itself raises
nothing.  Line 377 then calls `existing_context.strip()`, raising
`AttributeError`; not being a `RuntimeError`, it skips the first handler and
reaches `except Exception` (line 449), whose line 451 re-evaluates
`existing_context and len(existing_context.strip()) > 100` — the coroutine is
truthy, `.strip()` raises `AttributeError` again, and that exception, raised
inside the handler, escapes the node.  `judgment` is the outcome the
structured `RelevanceDecision` call would have (lines 380-435; never
reached); an `Except.error` result models an exception propagating out of
the node. -/
def check_relevance_node (s : WebRagState)
    (judgment : Except PyErr RelevanceDecision) : Except PyErr StateUpdate :=
  let optimized_query := s.optimized_query
  let existing_context : PyValue := .coroutine
  let body : Except PyErr StateUpdate := do
    let _context_length ←
      if existing_context.truthy then do
        let stripped ← existing_context.strip
        pure stripped.length
      else
        pure 0
    let decision ← judgment
    pure { StateUpdate.empty with
        is_search_relevant := some (!decision.needs_search),
        has_search_data := some (!decision.needs_search) }
  match body with
  | .ok u => .ok u
  | .error (.runtimeError _) =>
      .ok (relevanceRuntimeErrorUpdate optimized_query)
  | .error (.otherError em) =>
      if existing_context.truthy then
        match existing_context.strip with
        | .error e2 => .error e2
        | .ok stripped =>
            let context_exists := decide (stripped.length > 100)
            .ok { StateUpdate.empty with
                is_search_relevant := some context_exists,
                has_search_data := some context_exists,
                messages := [.ai ("AI relevance assessment failed (" ++ em
                  ++ "), using fallback decision: "
                  ++ (if context_exists then "Using existing context" else "Will search web"))] }
      else
        .ok { StateUpdate.empty with
            is_search_relevant := some false,
            has_search_data := some false,
            messages := [.ai ("AI relevance assessment failed (" ++ em
              ++ "), using fallback decision: Will search web")] }

/-- `web_search_and_store_node` (web_rag_agent.py lines 155-200).
`searchOutcome` models `await perform_web_search(optimized_query,
max_results=10)` (an `Except.error` stands for a raised
`ValueError`/`RuntimeError`, the only exceptions the node catches, carrying
`str(e)`); `storeOutcome` models `await
store_search_results_in_vector_db(search_content, collection_name)` the same
way.  Either failure returns only the error message; only when both succeed
are the three tracking fields updated. -/
def web_search_and_store_node (_s : WebRagState)
    (searchOutcome : Except String (List String))
    (storeOutcome : Except String Nat) : StateUpdate :=
  match searchOutcome with
  | .error e => { StateUpdate.empty with messages := [.ai e] }
  | .ok _ =>
      match storeOutcome with
      | .error e => { StateUpdate.empty with messages := [.ai e] }
      | .ok _ =>
          { StateUpdate.empty with
              is_search_relevant := some true,
              is_first_run := some false,
              has_search_data := some true }

/-- `rag_response_node` (web_rag_agent.py lines 203-272).  With search data
the try block's line 223 calls the `async` `web_vector_search` **without
`await`**: it binds the coroutine object and cannot raise, so the
`except RuntimeError` handler at line 246 is unreachable and the coroutine's
repr is what gets interpolated into the system prompt; without search data a
general-knowledge prompt is built.  Both branches then invoke the completion
model outside any `try` (line 270): `responseResult` is that call's outcome,
whose failure propagates out of the node; on success the node returns only
the answer message. -/
def rag_response_node (_s : WebRagState)
    (responseResult : Except PyErr String) : Except PyErr StateUpdate :=
  match responseResult with
  | .ok response => .ok { StateUpdate.empty with messages := [.ai response] }
  | .error e => .error e

/-- `route_after_first_run_check` (web_rag_agent.py lines 459-469). -/
def route_after_first_run_check (s : WebRagState) : Node :=
  if !s.is_first_run then
    .generate_search_query
  else if s.is_search_relevant then
    .rag_response
  else
    .generate_search_query

/-- `route_after_search_query` (web_rag_agent.py lines 472-477). -/
def route_after_search_query (s : WebRagState) : Node :=
  if s.is_first_run then
    .web_search_and_store
  else
    .check_relevance

/-- `route_after_relevance_check` (web_rag_agent.py lines 480-485). -/
def route_after_relevance_check (s : WebRagState) : Node :=
  if s.is_search_relevant then
    .rag_response
  else
    .web_search_and_store

/-- The capability-call outcomes available to one turn of the web-RAG graph:
one slot for each external call a node can actually make.  A turn makes at
most one call per slot, so fixed values suffice. -/
structure TurnEnv where
  firstRunJudgment : Except PyErr FirstRunSearchDecision
  searchQueryResult : Except PyErr SearchQuery
  relevanceJudgment : Except PyErr RelevanceDecision
  webSearchResult : Except String (List String)
  storeResult : Except String Nat
  responseResult : Except PyErr String

/-- The observable outcome of one turn: the persisted state (the committed
channel updates), the nodes that started executing, in order, and the
exception that escaped the graph, if any.  When a node raises, its own
update is not applied and no later node runs; the updates of the earlier
super-steps remain committed (no claim depends on that checkpointing choice:
the nodes that can precede a failure never write the fields at issue). -/
structure TurnResult where
  state : WebRagState
  visited : List Node
  error : Option PyErr
  deriving DecidableEq, Repr

/-- One turn of the compiled graph (web_rag_agent.py lines 488-532): entry
point `check_first_run_search_need`, the three conditional edges given by the
routing functions, the unconditional edge `web_search_and_store →
rag_response`, and `rag_response → END`.  The per-turn graph is acyclic, so
the run is the straight-line composition of the edges; a node returning
`Except.error` aborts the turn with that exception. -/
def runTurn (env : TurnEnv) (s : WebRagState) : TurnResult :=
  let s1 := applyUpdate s (check_first_run_search_need_node s env.firstRunJudgment)
  if route_after_first_run_check s1 = Node.rag_response then
    match rag_response_node s1 env.responseResult with
    | .ok u => ⟨applyUpdate s1 u, [.check_first_run_search_need, .rag_response], none⟩
    | .error e => ⟨s1, [.check_first_run_search_need, .rag_response], some e⟩
  else
    let s2 := applyUpdate s1 (generate_search_query_node s1 env.searchQueryResult)
    if route_after_search_query s2 = Node.web_search_and_store then
      let s3 := applyUpdate s2 (web_search_and_store_node s2 env.webSearchResult env.storeResult)
      match rag_response_node s3 env.responseResult with
      | .ok u => ⟨applyUpdate s3 u,
          [.check_first_run_search_need, .generate_search_query, .web_search_and_store,
           .rag_response], none⟩
      | .error e => ⟨s3,
          [.check_first_run_search_need, .generate_search_query, .web_search_and_store,
           .rag_response], some e⟩
    else
      match check_relevance_node s2 env.relevanceJudgment with
      | .error e => ⟨s2,
          [.check_first_run_search_need, .generate_search_query, .check_relevance], some e⟩
      | .ok u =>
          let s3 := applyUpdate s2 u
          if route_after_relevance_check s3 = Node.rag_response then
            match rag_response_node s3 env.responseResult with
            | .ok u2 => ⟨applyUpdate s3 u2,
                [.check_first_run_search_need, .generate_search_query, .check_relevance,
                 .rag_response], none⟩
            | .error e => ⟨s3,
                [.check_first_run_search_need, .generate_search_query, .check_relevance,
                 .rag_response], some e⟩
          else
            let s4 := applyUpdate s3 (web_search_and_store_node s3 env.webSearchResult
              env.storeResult)
            match rag_response_node s4 env.responseResult with
            | .ok u2 => ⟨applyUpdate s4 u2,
                [.check_first_run_search_need, .generate_search_query, .check_relevance,
                 .web_search_and_store, .rag_response], none⟩
            | .error e => ⟨s4,
                [.check_first_run_search_need, .generate_search_query, .check_relevance,
                 .web_search_and_store, .rag_response], some e⟩

/-- A thread's life: the turns run in order on the persisted state (the
checkpointer restores the previous turn's final state before each new
turn). -/
def runThread (envs : List TurnEnv) (s : WebRagState) : WebRagState :=
  envs.foldl (fun st env => (runTurn env st).state) s

/-! ## Resume/RAG assistant (`rag_assistant.py`) -/

/-- An `AIMessage` as the resume agent's model step produces it: its text and
its pending tool calls (we keep only the tool-call names, the only thing the
control flow inspects is whether the list is empty). -/
structure AIMessage where
  content : String
  tool_calls : List String
  deriving DecidableEq, Repr

/-- `acall_model` (rag_assistant.py lines 94-109): after the model call
returns `response`, if `state["remaining_steps"] < 10` and the response has
pending tool calls, the node substitutes the fixed "need more steps"
assistant message (which carries no tool calls); otherwise it returns the
response itself.  `remaining_steps` is LangGraph's managed `RemainingSteps`
counter. -/
def acall_model (remaining_steps : Nat) (response : AIMessage) : List AIMessage :=
  if remaining_steps < 10 && !response.tool_calls.isEmpty then
    [{ content := "Sorry, need more steps to process this request.", tool_calls := [] }]
  else
    [response]

/-- The two targets of the resume agent's conditional edge after `model`. -/
inductive AssistantRoute where
  | tools
  | done
  deriving DecidableEq, Repr

/-- `pending_tool_calls` (rag_assistant.py lines 122-128): route to the tool
node iff the last (AI) message still has tool calls, else end the turn. -/
def pending_tool_calls (last_message : AIMessage) : AssistantRoute :=
  if !last_message.tool_calls.isEmpty then .tools else .done

/-! ## Retrieval gateway keyword filter (`tools.py`) -/

/-- A predicate value of the PGVector metadata filter dictionary:
`like p` models `{"$like": p}`, `eq v` models `{"$eq": v}`, and
`orTagsLike ps` models `{"$or": [{"tags": {"$like": p}} for p in ps]}` — the
only shape the source ever puts under `"$or"` (tools.py lines 127-135). -/
inductive FilterVal where
  | like (pattern : String)
  | eq (value : String)
  | orTagsLike (patterns : List String)
  deriving DecidableEq, Repr

/-- A metadata filter dictionary, as its (key, value) pairs in insertion
order (Python dicts preserve insertion order). -/
abbrev MetaFilter := List (String × FilterVal)

/-- Python's `str.lower()` (executable on character lists, unlike core
`String.toLower`, so that concrete instances evaluate). -/
def pyLower (s : String) : String :=
  ⟨s.data.map Char.toLower⟩

/-- Python's `sub in s` substring test, on the character lists of the two
strings. -/
def strContains (s sub : String) : Bool :=
  go sub.data s.data
where
  go (pat l : List Char) : Bool :=
    pat.isPrefixOf l ||
      match l with
      | [] => false
      | _ :: rest => go pat rest

/-- The `tech_keywords` mapping of `build_keyword_filter` (tools.py lines
90-116), in the source's insertion order. -/
def tech_keywords : List (String × String) :=
  [("python", "python"), ("react", "react"), ("typescript", "typescript"),
   ("javascript", "javascript"), ("nextjs", "nextjs"), ("next.js", "nextjs"),
   ("django", "django"), ("fastapi", "fastapi"), ("streamlit", "streamlit"),
   ("docker", "docker"), ("kubernetes", "kubernetes"), ("k8s", "kubernetes"),
   ("postgresql", "postgresql"), ("postgres", "postgresql"), ("mongodb", "mongodb"),
   ("redis", "redis"), ("tensorflow", "tensorflow"), ("pytorch", "pytorch"),
   ("openai", "openai"), ("langchain", "langchain"), ("anthropic", "anthropic"),
   ("azure", "azure"), ("aws", "aws"), ("gcp", "gcp"), ("google cloud", "gcp")]

/-- The technology tags matched in a (lowercased) query: the `matching_tags`
loop of `build_keyword_filter` (tools.py lines 119-122). -/
def matchingTags (query_lower : String) : List String :=
  (tech_keywords.filter (fun kt => strContains query_lower kt.1)).map (fun kt => kt.2)

/-- `build_keyword_filter` (tools.py lines 79-158).  For the `"projects"`
collection: technology tags become a single `tags $like` entry, or a `$or` of
such entries when several keywords match; then a `content_type` entry is added
for readme/documentation/detailed vs description/summary/overview queries.
For the `"resume"` collection: the first matching section keyword group wins
(work terms, then education terms, then skills terms), then a `source` entry
for pdf vs web queries.  Every other collection type yields the empty
filter. -/
def build_keyword_filter (query : String) (collection_type : String) : MetaFilter :=
  let query_lower := pyLower query
  if collection_type == "projects" then
    let matching_tags := matchingTags query_lower
    let tagPart : MetaFilter :=
      match matching_tags with
      | [] => []
      | [tag] => [("tags", .like ("%" ++ tag ++ "%"))]
      | tags => [("$or", .orTagsLike (tags.map (fun t => "%" ++ t ++ "%")))]
    let contentPart : MetaFilter :=
      if strContains query_lower "readme" || strContains query_lower "documentation"
          || strContains query_lower "detailed" then
        [("content_type", .eq "readme")]
      else if strContains query_lower "description" || strContains query_lower "summary"
          || strContains query_lower "overview" then
        [("content_type", .eq "description")]
      else
        []
    tagPart ++ contentPart
  else if collection_type == "resume" then
    let sectionPart : MetaFilter :=
      if ["work", "experience", "job", "employment", "career"].any
          (fun k => strContains query_lower k) then
        [("section", .eq "Work Experience")]
      else if ["education", "school", "university", "degree", "colorado", "boulder",
          "cu"].any (fun k => strContains query_lower k) then
        [("section", .eq "Education")]
      else if ["skills", "technical", "programming", "languages", "technologies"].any
          (fun k => strContains query_lower k) then
        [("section", .eq "Skills")]
      else
        []
    let sourcePart : MetaFilter :=
      if strContains query_lower "pdf" then
        [("source", .like "%drive.google.com%")]
      else if strContains query_lower "web" || strContains query_lower "website" then
        [("source", .like "%richardr.dev%")]
      else
        []
    sectionPart ++ sourcePart
  else
    []

/-- The metadata filter `projects_search` passes to the retriever (tools.py
lines 247-278): the keyword filter built from the query for the `"projects"`
collection type. -/
def projects_search_filter (query : String) : MetaFilter :=
  build_keyword_filter query "projects"

/-! ## Theorems -/

/-- C2: for every thread id, the ephemeral collection name is the string
`"web_search_"` followed by the thread id, and the map from thread id to
collection name is injective; it is a pure Lean function, hence deterministic,
so two turns carrying the same thread id compute the same name. -/
theorem collection_name_prefix_and_injective :
    (∀ t : String,
      get_collection_name_from_thread ⟨some t⟩ = "web_search_" ++ t) ∧
    (∀ t₁ t₂ : String,
      get_collection_name_from_thread ⟨some t₁⟩ = get_collection_name_from_thread ⟨some t₂⟩ →
      t₁ = t₂) := by
  constructor
  · intro t
    rfl
  · intro t₁ t₂ h
    simpa [get_collection_name_from_thread, String.ext_iff,
      String.data_append] using h

/-- Witness for C2 at the concrete thread ids `"t1"` and `"t1"`. -/
theorem collection_name_prefix_and_injective_witness :
    get_collection_name_from_thread ⟨some "t1"⟩ = "web_search_t1" ∧ ("t1" : String) = "t1" := by
  refine ⟨?_, collection_name_prefix_and_injective.2 "t1" "t1" ?_⟩
  · exact (collection_name_prefix_and_injective.1 "t1").trans rfl
  · rfl

/-- C9: when the model's response still carries tool calls but the remaining
step budget is below the safety margin of 10, `acall_model` returns only the
fixed "need more steps" assistant message with no tool calls, and the
conditional edge `pending_tool_calls` therefore routes to `END` — the pending
tool calls are not executed and the turn does not loop. -/
theorem acall_model_exhaustion (remaining_steps : Nat) (response : AIMessage)
    (hsteps : remaining_steps < 10) (htc : response.tool_calls ≠ []) :
    acall_model remaining_steps response =
      [{ content := "Sorry, need more steps to process this request.", tool_calls := [] }] ∧
    ∀ m ∈ acall_model remaining_steps response, pending_tool_calls m = .done := by
  have hcond : (decide (remaining_steps < 10) && !response.tool_calls.isEmpty) = true := by
    simp [hsteps, htc]
  refine ⟨?_, ?_⟩
  · simp [acall_model, hcond]
  · intro m hm
    simp [acall_model, hcond] at hm
    simp [hm, pending_tool_calls]

/-- Witness for C9: five remaining steps, one pending `projects_search` call. -/
theorem acall_model_exhaustion_witness :
    acall_model 5 ⟨"", ["projects_search"]⟩ =
      [{ content := "Sorry, need more steps to process this request.", tool_calls := [] }] ∧
    ∀ m ∈ acall_model 5 ⟨"", ["projects_search"]⟩, pending_tool_calls m = .done :=
  acall_model_exhaustion 5 ⟨"", ["projects_search"]⟩ (by decide) (by decide)

/-- C10: in `web_search_and_store_node`, a failed web search or a failed
vector-store write (a raised `ValueError`/`RuntimeError`, carrying message
`e`) makes the node return only the error-bearing assistant message, leaving
`is_first_run`, `is_search_relevant` and `has_search_data` unchanged; only
when both calls succeed are the three fields set to `false`/`true`/`true`. -/
theorem web_search_and_store_failure_leaves_flags (s : WebRagState)
    (searchOut : Except String (List String)) (storeOut : Except String Nat) :
    (∀ e, searchOut = .error e →
      applyUpdate s (web_search_and_store_node s searchOut storeOut) =
        { s with messages := s.messages ++ [.ai e] }) ∧
    (∀ r e, searchOut = .ok r → storeOut = .error e →
      applyUpdate s (web_search_and_store_node s searchOut storeOut) =
        { s with messages := s.messages ++ [.ai e] }) ∧
    (∀ r n, searchOut = .ok r → storeOut = .ok n →
      applyUpdate s (web_search_and_store_node s searchOut storeOut) =
        { s with is_first_run := false, is_search_relevant := true,
                 has_search_data := true }) := by
  refine ⟨?_, ?_, ?_⟩
  · rintro e rfl
    simp [web_search_and_store_node, applyUpdate, StateUpdate.empty]
  · rintro r e rfl rfl
    simp [web_search_and_store_node, applyUpdate, StateUpdate.empty]
  · rintro r n rfl rfl
    simp [web_search_and_store_node, applyUpdate, StateUpdate.empty]

/-- Witness for C10: a failed search with message `"Web search failed"` on a
fresh-thread state leaves the three flags at their previous values. -/
theorem web_search_and_store_failure_leaves_flags_witness :
    applyUpdate ⟨[Msg.human "news?"], false, "news", true, false⟩
        (web_search_and_store_node ⟨[Msg.human "news?"], false, "news", true, false⟩
          (.error "Web search failed") (.ok 3)) =
      { messages := [Msg.human "news?", Msg.ai "Web search failed"],
        is_search_relevant := false, optimized_query := "news",
        is_first_run := true, has_search_data := false } :=
  ((web_search_and_store_failure_leaves_flags
      ⟨[Msg.human "news?"], false, "news", true, false⟩
      (.error "Web search failed") (.ok 3)).1 "Web search failed" rfl).trans (by rfl)

/-- C7: when the search-query-optimization model call fails and the latest
conversation message is the user's (a `HumanMessage` with content `q`),
`generate_search_query_node` sets `optimized_query` to `q` verbatim and
appends the visible diagnostic assistant message; the failure is absorbed into
a normal state update, not propagated. -/
theorem generate_search_query_fallback (s : WebRagState) (err : PyErr) (q : String)
    (hlast : s.messages.getLast? = some (.human q)) :
    applyUpdate s (generate_search_query_node s (.error err)) =
      { s with optimized_query := q,
               messages := s.messages ++
                 [.ai ("Query optimization failed, using original query: '" ++ q ++ "'")] } := by
  simp [generate_search_query_node, hlast, applyUpdate, StateUpdate.empty]

/-- Witness for C7 at a one-message conversation and a non-`RuntimeError`
model failure. -/
theorem generate_search_query_fallback_witness :
    applyUpdate ⟨[Msg.human "What is new with k8s?"], false, "", true, false⟩
        (generate_search_query_node ⟨[Msg.human "What is new with k8s?"], false, "", true, false⟩
          (.error (.otherError "model timeout"))) =
      { messages := [Msg.human "What is new with k8s?",
          Msg.ai "Query optimization failed, using original query: 'What is new with k8s?'"],
        is_search_relevant := false,
        optimized_query := "What is new with k8s?",
        is_first_run := true, has_search_data := false } :=
  (generate_search_query_fallback ⟨[Msg.human "What is new with k8s?"], false, "", true, false⟩
      (.otherError "model timeout") "What is new with k8s?" rfl).trans (by rfl)

/-- `check_relevance_node` always evaluates to the escaping `AttributeError`:
line 376 binds the un-awaited coroutine, line 377's `.strip()` on it raises,
and the `except Exception` handler's line 451 raises the same way again. -/
theorem check_relevance_node_eq_attribute_error (s : WebRagState)
    (judgment : Except PyErr RelevanceDecision) :
    check_relevance_node s judgment = .error (.otherError pyCoroutineStripError) := rfl

/-- C5: code_bug — the claim states that a failed retrieval makes the
relevance check return `is_search_relevant` false without propagating any
exception, but on the written code the retrieval call is never awaited
(web_rag_agent.py line 376), so its `RuntimeError` can never reach the
handler; instead every execution of `check_relevance_node`, whatever the
pending `judgment` outcome, propagates the `AttributeError` raised by
`.strip()` on the coroutine object and returns no state update at all. -/
theorem check_relevance_node_always_propagates (s : WebRagState)
    (judgment : Except PyErr RelevanceDecision) :
    check_relevance_node s judgment = .error (.otherError pyCoroutineStripError) ∧
    ∀ u : StateUpdate, check_relevance_node s judgment ≠ .ok u := by
  refine ⟨check_relevance_node_eq_attribute_error s judgment, ?_⟩
  intro u h
  rw [check_relevance_node_eq_attribute_error s judgment] at h
  simp at h

/-- C6: code_bug — the claim's length-100 heuristic (web_rag_agent.py lines
449-456) is dead code: its hypothesis "the retrieval call succeeds" is
unobtainable, because line 376 never awaits the retrieval, and when the
judgment call would fail the node has already raised at line 377; evaluated
at any failing judgment outcome, `check_relevance_node` propagates the
`AttributeError` from `.strip()` on the coroutine object (raised again inside
`except Exception` at line 451) instead of returning the `is_search_relevant`
/ `has_search_data` decision the heuristic prescribes. -/
theorem check_relevance_heuristic_unreachable (s : WebRagState) (err : PyErr) :
    check_relevance_node s (.error err) = .error (.otherError pyCoroutineStripError) ∧
    ∀ u : StateUpdate, check_relevance_node s (.error err) ≠ .ok u := by
  refine ⟨check_relevance_node_eq_attribute_error s (.error err), ?_⟩
  intro u h
  rw [check_relevance_node_eq_attribute_error s (.error err)] at h
  simp at h

/-- C8 counterexample: the query `"python docker readme"` contains both
`"python"` and `"readme"` (lowercased), yet the produced filter carries no
top-level `tags contains "python"` predicate — because a second technology
keyword (`"docker"`) also matches, the tag constraint becomes a `$or`
disjunction over the matching tags, which no longer asserts that `tags`
contains `"python"`. -/
theorem projects_filter_python_readme_counterexample :
    strContains (pyLower "python docker readme") "python" = true ∧
    strContains (pyLower "python docker readme") "readme" = true ∧
    ("tags", FilterVal.like "%python%") ∉ projects_search_filter "python docker readme" := by
  decide

/-- C8 amended: for every `projects_search` query whose lowercased form
contains `"readme"` and matches `"python"` as its **only** technology keyword,
the keyword-filter builder produces exactly the filter asserting that the
`tags` field contains `"python"` (a `$like "%python%"` predicate) and that
`content_type` equals `"readme"`.  When further technology keywords match,
the tag constraint is a `$or` disjunction instead — see the
counterexample. -/
theorem projects_filter_python_readme (q : String)
    (htags : matchingTags (pyLower q) = ["python"])
    (hreadme : strContains (pyLower q) "readme" = true) :
    projects_search_filter q =
      [("tags", .like "%python%"), ("content_type", .eq "readme")] := by
  simp [projects_search_filter, build_keyword_filter, htags, hreadme]

/-- Witness for C8 at the query `"python readme"`. -/
theorem projects_filter_python_readme_witness :
    matchingTags (pyLower "python readme") = ["python"] ∧
    strContains (pyLower "python readme") "readme" = true ∧
    projects_search_filter "python readme" =
      [("tags", .like "%python%"), ("content_type", .eq "readme")] :=
  ⟨by decide, by decide, projects_filter_python_readme "python readme" (by decide) (by decide)⟩

/-! ### State-machine routing and the `has_search_data` lifecycle -/

/-- `check_first_run_search_need_node` never writes `is_first_run`. -/
theorem check_first_run_node_is_first_run (s : WebRagState)
    (j : Except PyErr FirstRunSearchDecision) :
    (check_first_run_search_need_node s j).is_first_run = none := by
  unfold check_first_run_search_need_node
  cases s.is_first_run <;> cases j <;> rfl

/-- `check_first_run_search_need_node` never writes `has_search_data`. -/
theorem check_first_run_node_has_search_data (s : WebRagState)
    (j : Except PyErr FirstRunSearchDecision) :
    (check_first_run_search_need_node s j).has_search_data = none := by
  unfold check_first_run_search_need_node
  cases s.is_first_run <;> cases j <;> rfl

/-- `generate_search_query_node` never writes `is_first_run`. -/
theorem generate_search_query_node_is_first_run (s : WebRagState)
    (r : Except PyErr SearchQuery) :
    (generate_search_query_node s r).is_first_run = none := by
  cases r <;> rfl

/-- `generate_search_query_node` never writes `has_search_data`. -/
theorem generate_search_query_node_has_search_data (s : WebRagState)
    (r : Except PyErr SearchQuery) :
    (generate_search_query_node s r).has_search_data = none := by
  cases r <;> rfl

/-- A successful `rag_response_node` update never writes `has_search_data`
(the Python node returns only a `messages` key). -/
theorem rag_response_node_ok_has_search_data (s : WebRagState) (r : Except PyErr String)
    (u : StateUpdate) (h : rag_response_node s r = .ok u) : u.has_search_data = none := by
  cases r with
  | error e => exact absurd h (by simp [rag_response_node])
  | ok resp =>
    injection h with h2
    subst h2
    rfl

/-- `web_search_and_store_node` either leaves `has_search_data` alone (a
caught failure) or sets it to `true` (full success); it never writes
`false`. -/
theorem web_search_and_store_node_has_search_data (s : WebRagState)
    (ws : Except String (List String)) (st : Except String Nat) :
    (web_search_and_store_node s ws st).has_search_data = none ∨
    (web_search_and_store_node s ws st).has_search_data = some true := by
  cases ws with
  | error e => exact Or.inl rfl
  | ok r =>
    cases st with
    | error e => exact Or.inl rfl
    | ok n => exact Or.inr rfl

/-- Reading `has_search_data` through the channel merge. -/
theorem applyUpdate_has_search_data (s : WebRagState) (u : StateUpdate) :
    (applyUpdate s u).has_search_data = u.has_search_data.getD s.has_search_data := rfl

/-- C3: on a first-run turn whose first-run judgment decides that web search
is needed (`is_first_run` true, judgment `needs_web_search` true, so
`is_search_relevant` becomes false), the executed node sequence is exactly
first-run check → query generation → web acquisition → response: the routing
functions send the turn from the first-run check to `generate_search_query`
and from there to `web_search_and_store`, and the response node is reached
only after acquisition, never directly. -/
theorem first_run_needs_search_goes_to_acquisition (env : TurnEnv) (s : WebRagState)
    (d : FirstRunSearchDecision) (hfr : s.is_first_run = true)
    (hj : env.firstRunJudgment = .ok d) (hn : d.needs_web_search = true) :
    (runTurn env s).visited = [.check_first_run_search_need, .generate_search_query,
      .web_search_and_store, .rag_response] := by
  cases hrr : env.responseResult <;>
    simp [runTurn, route_after_first_run_check, route_after_search_query, applyUpdate,
      check_first_run_search_need_node, hj, hn, hfr, generate_search_query_node_is_first_run,
      StateUpdate.empty, rag_response_node, hrr]

/-- Witness for C3: a first-run turn judged to need search runs all four
nodes in order. -/
theorem first_run_needs_search_goes_to_acquisition_witness :
    (runTurn
        { firstRunJudgment := .ok ⟨true, "asks for current news"⟩,
          searchQueryResult := .ok ⟨"latest news X", "keywords"⟩,
          relevanceJudgment := .ok ⟨true, "no context"⟩,
          webSearchResult := .ok ["result"],
          storeResult := .ok 7,
          responseResult := .ok "grounded answer" }
        { messages := [.human "latest news on X?"], is_search_relevant := false,
          optimized_query := "", is_first_run := true, has_search_data := false }).visited =
      [.check_first_run_search_need, .generate_search_query, .web_search_and_store,
       .rag_response] :=
  first_run_needs_search_goes_to_acquisition _ _ ⟨true, "asks for current news"⟩ rfl rfl rfl

/-- C4: on a first-run turn whose first-run judgment decides that no web
search is needed, the turn routes directly from the first-run check to the
response node: the executed node sequence is exactly those two nodes and the
web-acquisition node (the only place that calls the web search and writes the
vector store) is never invoked. -/
theorem first_run_no_search_skips_acquisition (env : TurnEnv) (s : WebRagState)
    (d : FirstRunSearchDecision) (hfr : s.is_first_run = true)
    (hj : env.firstRunJudgment = .ok d) (hn : d.needs_web_search = false) :
    (runTurn env s).visited = [.check_first_run_search_need, .rag_response] ∧
    Node.web_search_and_store ∉ (runTurn env s).visited := by
  have h : (runTurn env s).visited = [.check_first_run_search_need, .rag_response] := by
    cases hrr : env.responseResult <;>
      simp [runTurn, route_after_first_run_check, applyUpdate,
        check_first_run_search_need_node, hj, hn, hfr, StateUpdate.empty,
        rag_response_node, hrr]
  exact ⟨h, by rw [h]; decide⟩

/-- Witness for C4: a first-run turn judged answerable from general knowledge
runs only the first-run check and the response node. -/
theorem first_run_no_search_skips_acquisition_witness :
    (runTurn
        { firstRunJudgment := .ok ⟨false, "general knowledge"⟩,
          searchQueryResult := .ok ⟨"capital France", "keywords"⟩,
          relevanceJudgment := .ok ⟨true, "no context"⟩,
          webSearchResult := .ok ["result"],
          storeResult := .ok 7,
          responseResult := .ok "Paris" }
        { messages := [.human "What is the capital of France?"], is_search_relevant := false,
          optimized_query := "", is_first_run := true, has_search_data := false }).visited =
      [.check_first_run_search_need, .rag_response] ∧
    Node.web_search_and_store ∉
      (runTurn
        { firstRunJudgment := .ok ⟨false, "general knowledge"⟩,
          searchQueryResult := .ok ⟨"capital France", "keywords"⟩,
          relevanceJudgment := .ok ⟨true, "no context"⟩,
          webSearchResult := .ok ["result"],
          storeResult := .ok 7,
          responseResult := .ok "Paris" }
        { messages := [.human "What is the capital of France?"], is_search_relevant := false,
          optimized_query := "", is_first_run := true, has_search_data := false }).visited :=
  first_run_no_search_skips_acquisition _ _ ⟨false, "general knowledge"⟩ rfl rfl rfl

/-- One turn preserves `has_search_data = true`, with no side condition: the
only node update ever applied that writes the field is the web acquisition's
`some true`, and `check_relevance_node` — the sole node whose written text
could lower it — always raises before returning, so its update is never
applied. -/
theorem runTurn_preserves_has_search_data (env : TurnEnv) (s : WebRagState)
    (hs : s.has_search_data = true) :
    (runTurn env s).state.has_search_data = true := by
  simp only [runTurn]
  split
  · split
    · rename_i u heq
      have hu := rag_response_node_ok_has_search_data _ _ _ heq
      simp [applyUpdate_has_search_data, hu, check_first_run_node_has_search_data, hs]
    · simp [applyUpdate_has_search_data, check_first_run_node_has_search_data, hs]
  · split
    · split
      · rename_i u heq
        have hu := rag_response_node_ok_has_search_data _ _ _ heq
        rcases web_search_and_store_node_has_search_data
            (applyUpdate (applyUpdate s (check_first_run_search_need_node s env.firstRunJudgment))
              (generate_search_query_node
                (applyUpdate s (check_first_run_search_need_node s env.firstRunJudgment))
                env.searchQueryResult))
            env.webSearchResult env.storeResult with hw | hw <;>
          simp [applyUpdate_has_search_data, hu, hw, check_first_run_node_has_search_data,
            generate_search_query_node_has_search_data, hs]
      · rcases web_search_and_store_node_has_search_data
            (applyUpdate (applyUpdate s (check_first_run_search_need_node s env.firstRunJudgment))
              (generate_search_query_node
                (applyUpdate s (check_first_run_search_need_node s env.firstRunJudgment))
                env.searchQueryResult))
            env.webSearchResult env.storeResult with hw | hw <;>
          simp [applyUpdate_has_search_data, hw, check_first_run_node_has_search_data,
            generate_search_query_node_has_search_data, hs]
    · split
      · simp [applyUpdate_has_search_data, check_first_run_node_has_search_data,
          generate_search_query_node_has_search_data, hs]
      · rename_i u heq
        exact absurd heq (by simp [check_relevance_node_eq_attribute_error])

/-- C1: for every thread state with `has_search_data` true and every sequence
of later turns (no explicit cleanup — the graph performs none), the field is
still true afterwards: it never regresses to false.  On the code the only
write to `has_search_data` that is ever applied is `web_search_and_store_node`
setting it `true` on a fully successful acquisition; the lowering writes in
`check_relevance_node` are unreachable because that node always raises
`AttributeError` (un-awaited retrieval call) before returning. -/
theorem has_search_data_never_regresses (envs : List TurnEnv) (s : WebRagState)
    (hs : s.has_search_data = true) :
    (runThread envs s).has_search_data = true := by
  induction envs generalizing s with
  | nil => simpa [runThread] using hs
  | cons e rest ih =>
    simpa [runThread] using ih (runTurn e s).state (runTurn_preserves_has_search_data e s hs)

/-- Start state for the C1 witness: a thread that already acquired search
data on an earlier turn. -/
def preservedStart : WebRagState :=
  { messages := [.human "any updates on the story?"], is_search_relevant := true,
    optimized_query := "story updates", is_first_run := false, has_search_data := true }

/-- Turn outcomes for the C1 witness: the relevance judge would demand a new
search and the web search would fail, yet `has_search_data` still cannot
regress. -/
def preservedEnv : TurnEnv :=
  { firstRunJudgment := .ok ⟨false, "subsequent turn"⟩,
    searchQueryResult := .ok ⟨"story updates", "keywords"⟩,
    relevanceJudgment := .ok ⟨true, "context is stale, search again"⟩,
    webSearchResult := .error "Web search failed: provider unavailable",
    storeResult := .ok 0,
    responseResult := .ok "answer" }

/-- Witness for C1 over a two-turn thread. -/
theorem has_search_data_never_regresses_witness :
    (runThread [preservedEnv, preservedEnv] preservedStart).has_search_data = true :=
  has_search_data_never_regresses [preservedEnv, preservedEnv] preservedStart rfl
